import Mathlib

/-!
# Verification of the `uapi_tools` plugin core (`src/main.py`)

Shallow embedding of the plugin's core logic:

* `_validate_domain`        — host/domain validation (IP literal check, regex,
                              per-label length, total length);
* `_format_data`            — the recursive JSON-to-text renderer;
* `_process_result`         — the `code`/`msg`/`data` envelope handler;
* `_execute_async_request`  — the executor converting remote-client behaviour
                              (result / timeout / client error / other error)
                              into a `(payload, error-message)` pair;
* `_execute_async_request_with_retry` — the bounded retry loop with linear
                              backoff, instrumented to record the backoff
                              sleeps and the number of attempts actually made;
* `_get_whois`, `_get_dns`, `_ping_host` — the three core lookup operations,
                              instrumented with the number of remote-client
                              invocations.

Python strings are modelled as Lean `String`; Python `str.split` on a
one-character separator, `str.lower()`/`str.upper()` (ASCII, as used here) and
substring tests are re-implemented structurally below so that all definitions
reduce in the kernel.  The standard-library call `ipaddress.ip_address` is
modelled by `ip_address_ok` following CPython's parser (Python ≥ 3.9.5 rules:
IPv4 octets are 1–3 ASCII digits, no leading zeros, value ≤ 255; IPv6 with
`::` compression, embedded IPv4 tail and non-empty `%zone` suffix).
-/

/-! ## Character and string helpers -/

/-- ASCII decimal digit. -/
def isDigitChar (c : Char) : Bool := '0' ≤ c && c ≤ '9'

/-- ASCII alphanumeric character (the regex class `[a-zA-Z0-9]`). -/
def isAlnumChar (c : Char) : Bool :=
  isDigitChar c || ('a' ≤ c && c ≤ 'z') || ('A' ≤ c && c ≤ 'Z')

/-- Character allowed in the middle of the domain regex: `[a-zA-Z0-9.-]`. -/
def isDomainChar (c : Char) : Bool := isAlnumChar c || c == '.' || c == '-'

/-- ASCII hexadecimal digit (for IPv6 hextets). -/
def isHexChar (c : Char) : Bool :=
  isDigitChar c || ('a' ≤ c && c ≤ 'f') || ('A' ≤ c && c ≤ 'F')

/-- ASCII lower-casing of one character (`str.lower` on the ASCII range,
which is all the source ever feeds it). -/
def lowerChar (c : Char) : Char :=
  if 'A' ≤ c && c ≤ 'Z' then Char.ofNat (c.toNat + 32) else c

/-- ASCII upper-casing of one character. -/
def upperChar (c : Char) : Char :=
  if 'a' ≤ c && c ≤ 'z' then Char.ofNat (c.toNat - 32) else c

/-- Python `s.lower()` (ASCII). -/
def lowerStr (s : String) : String := String.mk (s.data.map lowerChar)

/-- Python `s.upper()` (ASCII). -/
def upperStr (s : String) : String := String.mk (s.data.map upperChar)

/-- Split a character list on a one-character separator; mirrors Python
`str.split(sep)` for a one-character `sep` (so `"".split(sep) = [""]`,
and separators at the ends produce empty pieces). -/
def splitOnChar (sep : Char) : List Char → List (List Char)
  | [] => [[]]
  | c :: rest =>
    let r := splitOnChar sep rest
    if c == sep then [] :: r
    else
      match r with
      | [] => [[c]]
      | h :: t => (c :: h) :: t

/-- Python `s.split(sep)` for a one-character separator. -/
def splitStr (sep : Char) (s : String) : List String :=
  (splitOnChar sep s.data).map String.mk

/-- `leadsWith pat l` holds when `l` starts with `pat`. -/
def leadsWith : List Char → List Char → Bool
  | [], _ => true
  | _ :: _, [] => false
  | p :: ps, c :: cs => p == c && leadsWith ps cs

/-- `containsSeq l pat` holds when `pat` occurs contiguously inside `l`. -/
def containsSeq : List Char → List Char → Bool
  | l, pat =>
    leadsWith pat l ||
      match l with
      | [] => false
      | _ :: rest => containsSeq rest pat

/-- Python `pat in s` for strings. -/
def hasSubstr (s pat : String) : Bool := containsSeq s.data pat.data

/-! ## Model of `ipaddress.ip_address` (CPython stdlib) -/

/-- Numeric value of a decimal digit string. -/
def digitsToNat (l : List Char) : Nat :=
  l.foldl (fun acc c => acc * 10 + (c.toNat - 48)) 0

/-- A valid IPv4 octet string: 1–3 ASCII digits, no leading zero
(unless the octet is exactly `0`), value at most 255. -/
def okOctet (s : String) : Bool :=
  match s.data with
  | [] => false
  | c :: rest =>
    (c :: rest).all isDigitChar && (c :: rest).length ≤ 3 &&
      (rest.isEmpty || c != '0') && digitsToNat (c :: rest) ≤ 255

/-- A valid IPv4 dotted-quad literal: exactly four valid octets. -/
def isIPv4String (s : String) : Bool :=
  let parts := splitStr '.' s
  parts.length == 4 && parts.all okOctet

/-- A valid IPv6 hextet: 1–4 hex digits. -/
def okHextet (s : String) : Bool :=
  !s.data.isEmpty && s.data.length ≤ 4 && s.data.all isHexChar

/-- IPv6 address validity on the colon-separated pieces, mirroring CPython's
`IPv6Address._ip_int_from_string`: at least three pieces; an embedded IPv4
tail counts as two hextets; at most one `::` (an empty interior piece);
an empty first (resp. last) piece is only legal as part of a leading
(resp. trailing) `::`; with `::` at most seven other pieces, without it
exactly eight. -/
def isIPv6Parts (parts0 : List String) : Bool :=
  if parts0.length < 3 then false
  else
    match
      (match parts0.getLast? with
       | none => none
       | some last =>
         if last.data.contains '.' then
           if isIPv4String last then some (parts0.dropLast ++ ["0", "0"]) else none
         else some parts0) with
    | none => false
    | some parts =>
      if 9 < parts.length then false
      else
        let inner := (parts.drop 1).dropLast
        if 1 < inner.countP (fun p => p == "") then false
        else
          match inner.findIdx? (fun p => p == "") with
          | some j =>
            let skipIndex := j + 1
            let hi0 := skipIndex
            let lo0 := parts.length - skipIndex - 1
            let firstEmpty := parts.head? == some ""
            let lastEmpty := parts.getLast? == some ""
            let hi := if firstEmpty then hi0 - 1 else hi0
            if firstEmpty && hi != 0 then false
            else
              let lo := if lastEmpty then lo0 - 1 else lo0
              if lastEmpty && lo != 0 then false
              else if 8 ≤ hi + lo then false
              else
                (parts.take hi).all okHextet &&
                  (parts.drop (parts.length - lo)).all okHextet
          | none =>
            if parts.length != 8 then false
            else if parts.head? == some "" then false
            else if parts.getLast? == some "" then false
            else parts.all okHextet

/-- A valid IPv6 literal, with an optional non-empty `%zone` suffix. -/
def isIPv6String (s : String) : Bool :=
  match splitStr '%' s with
  | [addr] => isIPv6Parts (splitStr ':' addr)
  | [addr, zone] => zone != "" && isIPv6Parts (splitStr ':' addr)
  | _ => false

/-- Model of `ipaddress.ip_address(s)` succeeding: the string is a valid
IPv4 or IPv6 literal. -/
def ip_address_ok (s : String) : Bool := isIPv4String s || isIPv6String s

/-! ## Model of the domain regex -/

/-- Anchored match of
`^[a-zA-Z0-9][a-zA-Z0-9.-]*[a-zA-Z0-9]$|^[a-zA-Z0-9]$`
against the whole character list: either a single alphanumeric character,
or first and last alphanumeric with every middle character in the
`[a-zA-Z0-9.-]` class. -/
def plainDomainMatch : List Char → Bool
  | [] => false
  | [c] => isAlnumChar c
  | c :: rest =>
    isAlnumChar c &&
      (match rest.getLast? with
       | some d => isAlnumChar d
       | none => false) &&
      rest.dropLast.all isDomainChar

/-- Python `re.match(domain_pattern, s)` succeeding: `$` also matches just
before a single trailing newline, so the pattern matches `s` exactly, or
`s` with one final newline stripped. -/
def reMatchDomain (s : String) : Bool :=
  plainDomainMatch s.data ||
    (match s.data.getLast? with
     | some c => c == '\n' && plainDomainMatch s.data.dropLast
     | none => false)

/-! ## Validator (`_validate_domain`) -/

/-- Message for empty input or a pattern failure. -/
def invalidHostMsg : String := "❌ 请输入有效的域名或 IP 地址。"

/-- Message for a dot-separated label longer than 63 characters. -/
def labelLenMsg : String := "❌ 域名标签长度不能超过 63 个字符。"

/-- Message for a domain longer than 253 characters. -/
def totalLenMsg : String := "❌ 域名总长度不能超过 253 个字符。"

/-- Embedding of `_validate_domain` (src/main.py:112–141): empty strings are
invalid; any string accepted by `ipaddress.ip_address` is valid; otherwise the
string must match the domain regex, then every dot-separated label is checked
against 63 characters (first), then the total length against 253. -/
def _validate_domain (domain : String) : Bool × String :=
  if domain == "" then (false, invalidHostMsg)
  else if ip_address_ok domain then (true, "")
  else if !reMatchDomain domain then (false, invalidHostMsg)
  else
    let labels := splitStr '.' domain
    if labels.any (fun l => 63 < l.length) then (false, labelLenMsg)
    else if 253 < domain.length then (false, totalLenMsg)
    else (true, "")

example : _validate_domain "google.com" = (true, "") := by decide
example : _validate_domain "999.999.999.999" = (true, "") := by decide
example : _validate_domain "1.2.3.4" = (true, "") := by decide
example : _validate_domain "::1" = (true, "") := by decide
example : _validate_domain "2001:db8::ff00:42:8329" = (true, "") := by decide
example : _validate_domain "::ffff:192.0.2.1" = (true, "") := by decide
example : _validate_domain "fe80::1%eth0" = (true, "") := by decide
example : _validate_domain "" = (false, invalidHostMsg) := by decide
example : _validate_domain "-abc.com" = (false, invalidHostMsg) := by decide
example : _validate_domain "a" = (true, "") := by decide
example : _validate_domain "1:::2" = (false, invalidHostMsg) := by decide
example : _validate_domain "1::2:3:4:5:6:7:8" = (false, invalidHostMsg) := by decide
example : isIPv6String "1::2:3:4:5:6:7" = true := by decide
example : isIPv6String "::" = true := by decide
example : isIPv4String "01.2.3.4" = false := by decide
example : isIPv4String "256.1.1.1" = false := by decide

/-! ## JSON-like values

The remote client returns an arbitrary nested JSON-like Python value.  The
three types below are a mutual inductive so that every function over them is
plainly structural (objects keep insertion order, like Python dicts). -/

mutual
/-- A JSON-like Python value (`None`, `bool`, `int`, `str`, `list`, `dict`). -/
inductive Json where
  | null
  | bool (b : Bool)
  | num (n : Int)
  | str (s : String)
  | arr (items : JsonList)
  | obj (fields : JsonFields)

/-- The elements of a JSON array, in order. -/
inductive JsonList where
  | nil
  | cons (v : Json) (rest : JsonList)

/-- The fields of a JSON object, in insertion order. -/
inductive JsonFields where
  | nil
  | cons (k : String) (v : Json) (rest : JsonFields)
end

/-- Python `d.get(key)` on a dict: first (and in a real dict only) binding. -/
def JsonFields.get : JsonFields → String → Option Json
  | .nil, _ => none
  | .cons k v rest, key => if k == key then some v else JsonFields.get rest key

/-- Python truthiness of a JSON-like value (`bool(x)`): `None`, `False`, `0`,
`""`, `[]` and `{}` are falsy, everything else truthy. -/
def pyTruthy : Json → Bool
  | .null => false
  | .bool b => b
  | .num n => n != 0
  | .str s => s != ""
  | .arr .nil => false
  | .arr (.cons _ _) => true
  | .obj .nil => false
  | .obj (.cons _ _ _) => true

mutual
/-- Python `str(x)` of a JSON-like value: `None`/`True`/`False`, decimal
integers, the string itself unquoted, and container `repr`s. -/
def pyStr : Json → String
  | .null => "None"
  | .bool b => if b then "True" else "False"
  | .num n => toString n
  | .str s => s
  | .arr l => "[" ++ pyReprList l ++ "]"
  | .obj f => "\x7b" ++ pyReprFields f ++ "\x7d"

/-- Python `repr(x)`: like `str(x)` except strings gain single quotes. -/
def pyRepr : Json → String
  | .str s => "\x27" ++ s ++ "\x27"
  | .null => "None"
  | .bool b => if b then "True" else "False"
  | .num n => toString n
  | .arr l => "[" ++ pyReprList l ++ "]"
  | .obj f => "\x7b" ++ pyReprFields f ++ "\x7d"

/-- Comma-separated `repr`s of array elements. -/
def pyReprList : JsonList → String
  | .nil => ""
  | .cons v .nil => pyRepr v
  | .cons v rest => pyRepr v ++ ", " ++ pyReprList rest

/-- Comma-separated `'key': repr` pairs of object fields. -/
def pyReprFields : JsonFields → String
  | .nil => ""
  | .cons k v .nil => "\x27" ++ k ++ "\x27: " ++ pyRepr v
  | .cons k v rest => "\x27" ++ k ++ "\x27: " ++ pyRepr v ++ ", " ++ pyReprFields rest
end

/-! ## Result formatter (`_format_data`, src/main.py:78–110) -/

/-- The fixed suppression set of `_format_data`. -/
def suppressedKeys : List String :=
  ["min", "avg", "max", "mdev", "time", "id", "punycode"]

/-- The value half of the skip test: `value is None or value == ""`
(in Python only `None` and the empty string satisfy it; `0`, `False`,
`[]` and `{}` do not). -/
def skipValue : Json → Bool
  | .null => true
  | .str s => s == ""
  | _ => false

/-- `self.key_translations.get(key_l, key)`: look up the lowercased key in
the translation table, falling back to the raw key. -/
def translatedKey (tr : List (String × String)) (k : String) : String :=
  (List.lookup (lowerStr k) tr).getD k

/-- `"  " * indent`. -/
def indentStr (n : Nat) : String := String.mk (List.replicate (2 * n) ' ')

mutual
/-- Embedding of `_format_data`: renders a value at an indentation level,
returning the joined lines. -/
def _format_data (tr : List (String × String)) : Json → Nat → String
  | .obj f, indent => String.intercalate "\n" (formatFields tr f indent)
  | .arr l, indent => String.intercalate "\n" (formatItems tr l indent 0)
  | v, indent => indentStr indent ++ pyStr v

/-- The `lines` list built for a dict: each kept field contributes one line
(scalar value) or a label line plus the whole rendered child as one element
(dict or list value); suppressed keys and `None`/`""` values are skipped. -/
def formatFields (tr : List (String × String)) : JsonFields → Nat → List String
  | .nil, _ => []
  | .cons k v rest, indent =>
    if suppressedKeys.contains (lowerStr k) || skipValue v then
      formatFields tr rest indent
    else
      (match v with
       | .obj _ =>
         [indentStr indent ++ translatedKey tr k ++ ":", _format_data tr v (indent + 1)]
       | .arr _ =>
         [indentStr indent ++ translatedKey tr k ++ ":", _format_data tr v (indent + 1)]
       | _ =>
         [indentStr indent ++ translatedKey tr k ++ ": " ++ pyStr v]) ++
      formatFields tr rest indent

/-- The `lines` list built for a list: nested containers get a numbered
`- 项目 N:` header plus the rendered child; scalars get a bulleted line. -/
def formatItems (tr : List (String × String)) : JsonList → Nat → Nat → List String
  | .nil, _, _ => []
  | .cons v rest, indent, index =>
    (match v with
     | .obj _ =>
       [indentStr indent ++ "- 项目 " ++ toString (index + 1) ++ ":",
        _format_data tr v (indent + 1)]
     | .arr _ =>
       [indentStr indent ++ "- 项目 " ++ toString (index + 1) ++ ":",
        _format_data tr v (indent + 1)]
     | _ => [indentStr indent ++ "- " ++ pyStr v]) ++
    formatItems tr rest indent (index + 1)
end

example :
    _format_data [("domain", "🌐 域名")]
      (Json.obj (.cons "domain" (Json.str "a.com") .nil)) 0 = "🌐 域名: a.com" := by
  decide

example :
    _format_data []
      (Json.obj (.cons "x" (Json.num 0)
        (.cons "MIN" (Json.num 5)
          (.cons "y" (Json.str "")
            (.cons "z" (Json.obj .nil) .nil))))) 0 = "x: 0\nz:\n" := by
  decide

example :
    _format_data []
      (Json.arr (.cons (Json.str "a") (.cons (Json.arr (.cons (Json.num 1) .nil)) .nil))) 0 =
      "- a\n- 项目 2:\n  - 1" := by
  decide

/-! ## Envelope handler (`_process_result`, src/main.py:217–245) -/

/-- The `暂无数据` placeholder. -/
def noDataText : String := "暂无数据"

/-- Embedding of `_process_result`: falsy results give the no-data placeholder;
a dict with a `code` field is treated as an API envelope (`str(code) == "200"`
is success and renders `data`, anything else renders a failure diagnostic from
`code` and `msg`); any other value is rendered directly under the title. -/
def _process_result (tr : List (String × String)) (result : Json) (title : String) :
    String :=
  if !pyTruthy result then title ++ "\n" ++ noDataText
  else
    match result with
    | .obj fields =>
      match fields.get "code" with
      | some code =>
        if pyStr code == "200" then
          match fields.get "data" with
          | some d => title ++ "\n" ++ _format_data tr d 0
          | none => title ++ "\n" ++ noDataText
        else
          "❌ " ++ title ++ "\n错误代码: " ++ pyStr code ++ "\n错误信息: " ++
            pyStr ((fields.get "msg").getD (Json.str "未知错误"))
      | none => title ++ "\n" ++ _format_data tr result 0
    | .arr _ => title ++ "\n" ++ _format_data tr result 0
    | v => title ++ "\n" ++ pyStr v

example :
    _process_result [] (Json.obj (.cons "code" (Json.num 200)
      (.cons "data" (Json.obj (.cons "domain" (Json.str "a.com") .nil)) .nil))) "T" =
      "T\ndomain: a.com" := by decide

example :
    _process_result [] (Json.obj (.cons "code" (Json.num 404)
      (.cons "msg" (Json.str "not found") .nil))) "T" =
      "❌ T\n错误代码: 404\n错误信息: not found" := by decide

example : _process_result [] Json.null "T" = "T\n暂无数据" := by decide

/-! ## Request executor (`_execute_async_request`, src/main.py:143–185)

One attempt against the remote client either returns a JSON-like value or
raises; `PyExc` is the raised exception's class as the executor's `except`
clauses distinguish them (`asyncio.TimeoutError`, `uapi.errors.UapiError`,
any other `Exception`).  The executor converts each into a
`(payload, error-message)` pair; a `.error` result of the embedding would mean
an exception escaped the executor. -/

/-- Exception classes distinguished by the executor's `except` clauses. -/
inductive PyExc where
  | timeout
  | uapi (msg : String)
  | other (msg : String)

/-- The timeout error message. -/
def timeoutMsg : String := "❌ 请求超时，请稍后重试。"

/-- The `UapiError` (remote-client error) message. -/
def remoteErrMsg : String := "❌ 请求失败，请检查输入参数或稍后重试。"

/-- The catch-all internal-error message. -/
def internalErrMsg : String := "❌ 发生内部错误，请联系管理员。"

/-- The message returned after the retry loop exhausts every attempt. -/
def retriesExhaustedMsg : String := "请求失败，已达最大重试次数"

/-- Embedding of `_execute_async_request`: a successful call yields
`(some payload, "")`; each caught exception class yields `(none, message)`.
No behaviour of the wrapped call produces `.error` (no exception escapes). -/
def _execute_async_request (attempt : Except PyExc Json) :
    Except PyExc (Option Json × String) :=
  match attempt with
  | .ok v => .ok (some v, "")
  | .error .timeout => .ok (none, timeoutMsg)
  | .error (.uapi _) => .ok (none, remoteErrMsg)
  | .error (.other _) => .ok (none, internalErrMsg)

/-! ## Retry policy (`_execute_async_request_with_retry`, src/main.py:187–215)

The Python `for attempt in range(max_retries)` loop is embedded as structural
recursion over the list `List.range max_retries` of attempt indices.  The
behaviour of the wrapped remote call may differ per attempt, so it is a
function `step : Nat → Except PyExc Json` from the attempt index.  The result
is instrumented with the list of backoff sleeps (in seconds, in order) and the
number of attempts actually made. -/

/-- The loop body of the retry executor over the remaining attempt indices:
success returns immediately; an error containing `超时` sleeps
`1 * (attempt + 1)` and retries unless this was the last allowed attempt;
any other error returns immediately. -/
def retryGo (step : Nat → Except PyExc Json) (max_retries : Nat) (sleeps : List Nat) :
    List Nat → Except PyExc ((Option Json × String) × List Nat × Nat)
  | [] => .ok ((none, retriesExhaustedMsg), sleeps, max_retries)
  | attempt :: rest =>
    match _execute_async_request (step attempt) with
    | .error e => .error e
    | .ok (result, error) =>
      if error == "" then .ok ((result, error), sleeps, attempt + 1)
      else if hasSubstr error "超时" then
        if attempt < max_retries - 1 then
          retryGo step max_retries (sleeps ++ [1 * (attempt + 1)]) rest
        else .ok ((none, error), sleeps, attempt + 1)
      else .ok ((none, error), sleeps, attempt + 1)

/-- Embedding of `_execute_async_request_with_retry` (the call sites all use
the default `max_retries = 3`). -/
def _execute_async_request_with_retry (step : Nat → Except PyExc Json)
    (max_retries : Nat) : Except PyExc ((Option Json × String) × List Nat × Nat) :=
  retryGo step max_retries [] (List.range max_retries)

/-! ## The three core lookup operations (src/main.py:247–263, 292–327, 351–365)

Each returns the final user-facing text together with the number of
remote-client invocations actually performed (`0` when validation stops the
request before any network call). -/

/-- Embedding of `_get_whois`. -/
def _get_whois (tr : List (String × String)) (domain : String)
    (step : Nat → Except PyExc Json) : Except PyExc (String × Nat) :=
  let (valid, error_msg) := _validate_domain domain
  if !valid then .ok (error_msg, 0)
  else
    match _execute_async_request_with_retry step 3 with
    | .error e => .error e
    | .ok ((result, error), _, n) =>
      if error != "" then .ok (error, n)
      else
        .ok (_process_result tr (result.getD Json.null)
          ("🔍 WHOIS 查询结果 (" ++ domain ++ "):"), n)

/-- The DNS record-type allow-list (`valid_record_types`). -/
def valid_record_types : List String :=
  ["A", "AAAA", "CNAME", "MX", "TXT", "NS", "SOA", "PTR", "SRV", "CAA", "NAPTR"]

/-- The unsupported-record-type message, listing every allowed type. -/
def unsupportedTypeMsg : String :=
  "❌ 不支持的记录类型。支持的记录类型：" ++
    String.intercalate ", " valid_record_types ++ "。"

/-- Embedding of `_get_dns`: domain validation, then record-type validation
against the allow-list (case-insensitive via upper-casing), then the request. -/
def _get_dns (tr : List (String × String)) (domain record_type : String)
    (step : Nat → Except PyExc Json) : Except PyExc (String × Nat) :=
  let (valid, error_msg) := _validate_domain domain
  if !valid then .ok (error_msg, 0)
  else if !valid_record_types.contains (upperStr record_type) then
    .ok (unsupportedTypeMsg, 0)
  else
    match _execute_async_request_with_retry step 3 with
    | .error e => .error e
    | .ok ((result, error), _, n) =>
      if error != "" then .ok (error, n)
      else
        .ok (_process_result tr (result.getD Json.null)
          ("🔍 DNS 查询结果 (" ++ domain ++ ", 类型: " ++ record_type ++ "):"), n)

/-- Embedding of `_ping_host`. -/
def _ping_host (tr : List (String × String)) (host : String)
    (step : Nat → Except PyExc Json) : Except PyExc (String × Nat) :=
  let (valid, error_msg) := _validate_domain host
  if !valid then .ok (error_msg, 0)
  else
    match _execute_async_request_with_retry step 3 with
    | .error e => .error e
    | .ok ((result, error), _, n) =>
      if error != "" then .ok (error, n)
      else
        .ok (_process_result tr (result.getD Json.null)
          ("📶 Ping 检测结果 (" ++ host ++ "):"), n)

example :
    _execute_async_request_with_retry
      (fun i => if i < 2 then .error .timeout else .ok (Json.str "ok")) 3 =
      .ok ((some (Json.str "ok"), ""), [1, 2], 3) := rfl

example :
    _execute_async_request_with_retry (fun _ => .error .timeout) 3 =
      .ok ((none, timeoutMsg), [1, 2], 3) := rfl

example :
    _execute_async_request_with_retry (fun _ => .error (.uapi "boom")) 3 =
      .ok ((none, remoteErrMsg), [], 1) := rfl

example :
    _ping_host [] "999.999.999.999"
      (fun _ => .ok (Json.obj (.cons "code" (Json.num 200)
        (.cons "data" (Json.str "pong") .nil)))) =
      .ok ("📶 Ping 检测结果 (999.999.999.999):\npong", 1) := rfl

/-! ## Spec-side formatter

For the suppression claim, a second pair of definitions follows the
specification's words: `deepFilter` removes, at every nesting depth, each
object field whose lowercased key is in the suppression set or whose value is
empty/absent (`None` / empty string), and `formatDataSpec` renders **every**
field of its input with the spec's rendering rules (translated label, child
indented one level deeper, `label: value` for scalars).  The claim is then
that the source formatter equals the spec-side render of the filtered value. -/

/-- The suppression predicate as the specification words it: lowercased key
in the fixed set, or the value empty/absent. -/
def specSuppressed (k : String) (v : Json) : Bool :=
  suppressedKeys.contains (lowerStr k) || skipValue v

mutual
/-- Remove suppressed fields at every nesting depth. -/
def deepFilter : Json → Json
  | .obj f => .obj (deepFilterFields f)
  | .arr l => .arr (deepFilterList l)
  | v => v

/-- `deepFilter` on array elements. -/
def deepFilterList : JsonList → JsonList
  | .nil => .nil
  | .cons v rest => .cons (deepFilter v) (deepFilterList rest)

/-- `deepFilter` on object fields: drop suppressed ones, recurse into kept. -/
def deepFilterFields : JsonFields → JsonFields
  | .nil => .nil
  | .cons k v rest =>
    if specSuppressed k v then deepFilterFields rest
    else .cons k (deepFilter v) (deepFilterFields rest)
end

mutual
/-- Spec-side renderer: like `_format_data` but renders every field. -/
def formatDataSpec (tr : List (String × String)) : Json → Nat → String
  | .obj f, indent => String.intercalate "\n" (specFields tr f indent)
  | .arr l, indent => String.intercalate "\n" (specItems tr l indent 0)
  | v, indent => indentStr indent ++ pyStr v

/-- Spec-side rendering of object fields: every field is rendered. -/
def specFields (tr : List (String × String)) : JsonFields → Nat → List String
  | .nil, _ => []
  | .cons k v rest, indent =>
    (match v with
     | .obj _ =>
       [indentStr indent ++ translatedKey tr k ++ ":", formatDataSpec tr v (indent + 1)]
     | .arr _ =>
       [indentStr indent ++ translatedKey tr k ++ ":", formatDataSpec tr v (indent + 1)]
     | _ =>
       [indentStr indent ++ translatedKey tr k ++ ": " ++ pyStr v]) ++
    specFields tr rest indent

/-- Spec-side rendering of array elements. -/
def specItems (tr : List (String × String)) : JsonList → Nat → Nat → List String
  | .nil, _, _ => []
  | .cons v rest, indent, index =>
    (match v with
     | .obj _ =>
       [indentStr indent ++ "- 项目 " ++ toString (index + 1) ++ ":",
        formatDataSpec tr v (indent + 1)]
     | .arr _ =>
       [indentStr indent ++ "- 项目 " ++ toString (index + 1) ++ ":",
        formatDataSpec tr v (indent + 1)]
     | _ => [indentStr indent ++ "- " ++ pyStr v]) ++
    specItems tr rest indent (index + 1)
end

/-! ## Helper lemmas -/

/-- The executor never lets an exception escape: every remote-client
behaviour produces an `.ok` payload-or-message pair. -/
theorem exec_ok (b : Except PyExc Json) :
    ∃ p, _execute_async_request b = Except.ok p := by
  cases b with
  | ok v => exact ⟨_, rfl⟩
  | error e => cases e <;> exact ⟨_, rfl⟩

/-- The retry loop always terminates with an `.ok` outcome, and the number of
attempts it reports is either the bound (exhaustion) or `a + 1` for one of the
attempt indices it was given. -/
theorem retryGo_spec (step : Nat → Except PyExc Json) (max_retries : Nat) :
    ∀ (l : List Nat) (sleeps : List Nat),
      ∃ result error sl n,
        retryGo step max_retries sleeps l = Except.ok ((result, error), sl, n) ∧
          (n = max_retries ∨ ∃ a ∈ l, n = a + 1) := by
  intro l
  induction l with
  | nil => intro sleeps; exact ⟨none, retriesExhaustedMsg, sleeps, max_retries, rfl, Or.inl rfl⟩
  | cons a rest ih =>
    intro sleeps
    obtain ⟨⟨result, error⟩, hp⟩ := exec_ok (step a)
    simp only [retryGo, hp]
    by_cases he : error = ""
    · subst he
      exact ⟨result, "", sleeps, a + 1, by simp, Or.inr ⟨a, by simp⟩⟩
    · have he' : (error == "") = false := by simp [he]
      simp only [he', Bool.false_eq_true, if_false]
      by_cases ht : hasSubstr error "超时" = true
      · simp only [ht, if_true]
        by_cases hlast : a < max_retries - 1
        · simp only [hlast, if_true]
          obtain ⟨r, e, sl, n, heq, hn⟩ := ih (sleeps ++ [1 * (a + 1)])
          refine ⟨r, e, sl, n, heq, ?_⟩
          rcases hn with h | ⟨b, hb, hbn⟩
          · exact Or.inl h
          · exact Or.inr ⟨b, List.mem_cons_of_mem a hb, hbn⟩
        · simp only [hlast, if_false]
          exact ⟨none, error, sleeps, a + 1, rfl, Or.inr ⟨a, by simp⟩⟩
      · have ht' : hasSubstr error "超时" = false := by
          cases h : hasSubstr error "超时" with
          | false => rfl
          | true => exact absurd h ht
        simp only [ht', Bool.false_eq_true, if_false]
        exact ⟨none, error, sleeps, a + 1, rfl, Or.inr ⟨a, by simp⟩⟩

/-- `_execute_async_request_with_retry` at the default bound 3: always `.ok`,
with at least one attempt made. -/
theorem retry3_ok (step : Nat → Except PyExc Json) :
    ∃ result error sl n,
      _execute_async_request_with_retry step 3 = Except.ok ((result, error), sl, n) ∧
        1 ≤ n := by
  obtain ⟨r, e, sl, n, heq, hn⟩ := retryGo_spec step 3 (List.range 3) []
  refine ⟨r, e, sl, n, heq, ?_⟩
  rcases hn with h | ⟨a, _, hbn⟩
  · omega
  · omega

/-! ## Claim C9 -/

/-- C9: every string accepted by the IP-literal parser (valid IPv4 or IPv6
literal) is accepted by the validator with an empty message, regardless of the
domain-pattern, label-length and total-length rules. -/
theorem c9_ip_literal_accepted (s : String) (h : ip_address_ok s = true) :
    _validate_domain s = (true, "") := by
  have hne : s ≠ "" := by
    intro he
    rw [he] at h
    exact absurd h (by decide)
  have h0 : (s == "") = false := beq_eq_false_iff_ne.mpr hne
  simp [_validate_domain, h0, h]

/-- Witness for C9 at the concrete IPv4 literal `1.2.3.4`. -/
theorem c9_ip_literal_accepted_witness :
    ip_address_ok "1.2.3.4" = true ∧ _validate_domain "1.2.3.4" = (true, "") :=
  ⟨by decide, c9_ip_literal_accepted "1.2.3.4" (by decide)⟩

/-! ## Claim C2 -/

/-- A 254-character single-label host name: all `a`s, no dot. -/
def longSingleLabel : String := String.mk (List.replicate 254 'a')

set_option maxRecDepth 8000 in
/-- C2 counterexample: `longSingleLabel` is longer than 253 characters, is not
an IP literal, and passes the character-pattern check, yet the validator
returns the label-length message (the 63-character label check runs first),
not the total-length message the claim requires. -/
theorem c2_counterexample :
    253 < longSingleLabel.length ∧
    ip_address_ok longSingleLabel = false ∧
    reMatchDomain longSingleLabel = true ∧
    _validate_domain longSingleLabel = (false, labelLenMsg) ∧
    labelLenMsg ≠ totalLenMsg :=
  ⟨by decide, by decide, by decide, by decide, by decide⟩

/-- C2 as amended: a non-IP string longer than 253 characters that passes the
character-pattern check **and has no dot-separated label longer than 63
characters** is rejected with the total-length message. -/
theorem c2_total_length_message (s : String)
    (hip : ip_address_ok s = false) (hre : reMatchDomain s = true)
    (hlen : 253 < s.length)
    (hlab : ∀ l ∈ splitStr '.' s, l.length ≤ 63) :
    _validate_domain s = (false, totalLenMsg) := by
  have hne : s ≠ "" := by
    intro he
    rw [he] at hlen
    exact absurd hlen (by decide)
  have h0 : (s == "") = false := beq_eq_false_iff_ne.mpr hne
  have hany : (splitStr '.' s).any (fun l => 63 < l.length) = false := by
    simp only [List.any_eq_false, decide_eq_true_eq]
    intro l hl
    exact Nat.not_lt.mpr (hlab l hl)
  simp [_validate_domain, h0, hip, hre, hany, hlen]

/-- Four labels of 63 `a`s joined by dots: 255 characters in total, every
label within the 63-character limit. -/
def fourLongLabels : String :=
  String.mk (List.replicate 63 'a' ++ '.' :: List.replicate 63 'a' ++
    '.' :: List.replicate 63 'a' ++ '.' :: List.replicate 63 'a')

set_option maxRecDepth 8000 in
/-- Witness for the amended C2 at `fourLongLabels`. -/
theorem c2_total_length_message_witness :
    _validate_domain fourLongLabels = (false, totalLenMsg) :=
  c2_total_length_message fourLongLabels (by decide) (by decide) (by decide)
    (by decide)

/-! ## Claim C1 -/

/-- A remote-client stub whose every call succeeds with a
`{"code": 200, "data": "pong"}` envelope. -/
def pingStubBehavior : Nat → Except PyExc Json :=
  fun _ =>
    .ok (Json.obj (.cons "code" (Json.num 200) (.cons "data" (Json.str "pong") .nil)))

/-- C1 counterexample: with host `999.999.999.999` the ping operation does
**not** return the invalid-host message — validation passes (the string
matches the domain pattern) and the remote client is invoked once, its
success payload being rendered. -/
theorem c1_counterexample :
    _ping_host [] "999.999.999.999" pingStubBehavior =
      Except.ok ("📶 Ping 检测结果 (999.999.999.999):\npong", 1) ∧
    "📶 Ping 检测结果 (999.999.999.999):\npong" ≠ invalidHostMsg ∧
    (1 : Nat) ≠ 0 :=
  ⟨rfl, by decide, by decide⟩

/-- C1 as amended: `999.999.999.999` passes validation (it matches the
domain-name pattern even though it is not a valid IPv4 literal), and for every
remote-client behaviour the ping operation performs at least one network
call. -/
theorem c1_ping_invalid_ipv4_proceeds :
    _validate_domain "999.999.999.999" = (true, "") ∧
    ∀ step : Nat → Except PyExc Json, ∃ r n,
      _ping_host [] "999.999.999.999" step = Except.ok (r, n) ∧ 1 ≤ n := by
  refine ⟨by decide, fun step => ?_⟩
  obtain ⟨result, error, sl, n, heq, hn⟩ := retry3_ok step
  have hv : _validate_domain "999.999.999.999" = (true, "") := by decide
  simp only [_ping_host, hv]
  rw [heq]
  by_cases he : error = ""
  · subst he
    refine ⟨_process_result [] (result.getD Json.null)
      "📶 Ping 检测结果 (999.999.999.999):", n, ?_, hn⟩
    simp
  · refine ⟨error, n, ?_, hn⟩
    simp [he]

/-! ## Claim C4 -/

/-- C4: an operation that times out on its first two attempts and succeeds on
the third, run with `max_retries = 3`, yields the success payload with an
empty error, after exactly the backoff sleeps `[1, 2]` and three attempts. -/
theorem c4_retry_timeout_twice_then_success (step : Nat → Except PyExc Json)
    (payload : Json)
    (h0 : step 0 = Except.error PyExc.timeout)
    (h1 : step 1 = Except.error PyExc.timeout)
    (h2 : step 2 = Except.ok payload) :
    _execute_async_request_with_retry step 3 =
      Except.ok ((some payload, ""), [1, 2], 3) := by
  have hr : List.range 3 = [0, 1, 2] := rfl
  have hA : (timeoutMsg == "") = false := by decide
  have hB : hasSubstr timeoutMsg "超时" = true := by decide
  simp [_execute_async_request_with_retry, hr, retryGo, h0, h1, h2,
    _execute_async_request, hA, hB]

/-- A step function for the C4 witness: times out twice, then succeeds. -/
def c4StepBehavior : Nat → Except PyExc Json :=
  fun i => if i < 2 then Except.error PyExc.timeout else Except.ok (Json.str "ok")

/-- Witness for C4 at a concrete step function. -/
theorem c4_retry_timeout_twice_then_success_witness :
    _execute_async_request_with_retry c4StepBehavior 3 =
      Except.ok ((some (Json.str "ok"), ""), [1, 2], 3) :=
  c4_retry_timeout_twice_then_success c4StepBehavior (Json.str "ok") rfl rfl rfl

/-! ## Claim C8 -/

/-- C8: if the first attempt fails with a non-Timeout failure (a remote-client
`UapiError` or any other exception), the retry executor makes no further
attempt and no backoff sleep, returning that failure's `(None, message)` pair
as-is after exactly one attempt. -/
theorem c8_non_timeout_returned_immediately (step : Nat → Except PyExc Json)
    (max_retries : Nat) (m : String) (hmax : 1 ≤ max_retries) :
    (step 0 = Except.error (PyExc.uapi m) →
      _execute_async_request_with_retry step max_retries =
        Except.ok ((none, remoteErrMsg), [], 1)) ∧
    (step 0 = Except.error (PyExc.other m) →
      _execute_async_request_with_retry step max_retries =
        Except.ok ((none, internalErrMsg), [], 1)) := by
  obtain ⟨k, rfl⟩ : ∃ k, max_retries = k + 1 := ⟨max_retries - 1, by omega⟩
  have hu1 : (remoteErrMsg == "") = false := by decide
  have hu2 : hasSubstr remoteErrMsg "超时" = false := by decide
  have ho1 : (internalErrMsg == "") = false := by decide
  have ho2 : hasSubstr internalErrMsg "超时" = false := by decide
  constructor <;> intro h <;>
    simp [_execute_async_request_with_retry, List.range_succ_eq_map, retryGo, h,
      _execute_async_request, hu1, hu2, ho1, ho2]

/-- A step function for the C8 witness: raises a `UapiError` on every call. -/
def c8StepBehavior : Nat → Except PyExc Json :=
  fun _ => Except.error (PyExc.uapi "bad request")

/-- Witness for C8 at a concrete step function and `max_retries = 3`. -/
theorem c8_non_timeout_returned_immediately_witness :
    _execute_async_request_with_retry c8StepBehavior 3 =
      Except.ok ((none, remoteErrMsg), [], 1) :=
  (c8_non_timeout_returned_immediately c8StepBehavior 3 "bad request"
    (by decide)).1 rfl

/-! ## Claim C7 -/

/-- C7: with a valid domain, a DNS lookup whose record type does not
upper-case into the eleven-entry allow-list returns the unsupported-type
message (which lists all eleven allowed types) after zero remote-client
invocations, for every remote behaviour. -/
theorem c7_dns_unsupported_type (tr : List (String × String))
    (domain record_type : String) (step : Nat → Except PyExc Json)
    (hv : (_validate_domain domain).1 = true)
    (hrt : valid_record_types.contains (upperStr record_type) = false) :
    _get_dns tr domain record_type step = Except.ok (unsupportedTypeMsg, 0) ∧
    unsupportedTypeMsg =
      "❌ 不支持的记录类型。支持的记录类型：A, AAAA, CNAME, MX, TXT, NS, SOA, PTR, SRV, CAA, NAPTR。" := by
  refine ⟨?_, by decide⟩
  have hmem : upperStr record_type ∉ valid_record_types := by simpa using hrt
  rcases h : _validate_domain domain with ⟨valid, msg⟩
  rw [h] at hv
  simp only at hv
  subst hv
  simp [_get_dns, h, hmem]

/-- Witness for C7 with domain `example.com` and record type `XYZ`. -/
theorem c7_dns_unsupported_type_witness :
    _get_dns [] "example.com" "XYZ" (fun _ => Except.ok Json.null) =
      Except.ok (unsupportedTypeMsg, 0) :=
  (c7_dns_unsupported_type [] "example.com" "XYZ" (fun _ => Except.ok Json.null)
    (by decide) (by decide)).1

/-! ## Claim C3 -/

/-- C3: for a top-level mapping with a `code` field, a code whose string
conversion is `200` renders the title and the recursively formatted `data`
value (or the no-data placeholder when `data` is absent); any other code
renders only the failure diagnostic from `code` and `msg` (defaulting to
`未知错误`), with no recursion into other fields. -/
theorem c3_process_result_code_dispatch (tr : List (String × String))
    (fields : JsonFields) (title : String) (code : Json)
    (hc : fields.get "code" = some code) :
    (pyStr code = "200" →
      _process_result tr (Json.obj fields) title =
        (match fields.get "data" with
         | some d => title ++ "\n" ++ _format_data tr d 0
         | none => title ++ "\n" ++ noDataText)) ∧
    (pyStr code ≠ "200" →
      _process_result tr (Json.obj fields) title =
        "❌ " ++ title ++ "\n错误代码: " ++ pyStr code ++ "\n错误信息: " ++
          pyStr ((fields.get "msg").getD (Json.str "未知错误"))) := by
  have hft : pyTruthy (Json.obj fields) = true := by
    cases fields with
    | nil => simp [JsonFields.get] at hc
    | cons k v rest => rfl
  constructor
  · intro h200
    have hb : (pyStr code == "200") = true := by simp [h200]
    simp [_process_result, hft, hc, hb]
  · intro h200
    have hb : (pyStr code == "200") = false := by simp [h200]
    simp [_process_result, hft, hc, hb]

/-- The fields of the C3 witness envelope: `{"code": 404, "msg": "not found"}`. -/
def c3Fields : JsonFields :=
  .cons "code" (Json.num 404) (.cons "msg" (Json.str "not found") .nil)

/-- Witness for C3 on the failure envelope `{"code": 404, "msg": "not found"}`. -/
theorem c3_process_result_code_dispatch_witness :
    _process_result [] (Json.obj c3Fields) "T" =
      "❌ T\n错误代码: 404\n错误信息: not found" :=
  ((c3_process_result_code_dispatch [] c3Fields "T" (Json.num 404) rfl).2
    (by decide)).trans (by decide)

/-! ## Claim C6 -/

/-- C6: for every input string and every remote-client behaviour (success
with any JSON-like value, `UapiError`, any other exception, or timeout on
each attempt), each of the three core lookups resolves to an `.ok` result —
no exception escapes to the caller. -/
theorem c6_lookups_never_raise (tr : List (String × String))
    (domain record_type host : String)
    (s1 s2 s3 : Nat → Except PyExc Json) :
    (∃ r, _get_whois tr domain s1 = Except.ok r) ∧
    (∃ r, _get_dns tr domain record_type s2 = Except.ok r) ∧
    (∃ r, _ping_host tr host s3 = Except.ok r) := by
  refine ⟨?_, ?_, ?_⟩
  · rcases h : _validate_domain domain with ⟨valid, msg⟩
    cases valid
    · exact ⟨(msg, 0), by simp [_get_whois, h]⟩
    · obtain ⟨result, error, sl, n, heq, _⟩ := retry3_ok s1
      by_cases he : error = ""
      · subst he
        exact ⟨(_process_result tr (result.getD Json.null)
          ("🔍 WHOIS 查询结果 (" ++ domain ++ "):"), n),
          by simp [_get_whois, h, heq]⟩
      · exact ⟨(error, n), by simp [_get_whois, h, heq, he]⟩
  · rcases h : _validate_domain domain with ⟨valid, msg⟩
    cases valid
    · exact ⟨(msg, 0), by simp [_get_dns, h]⟩
    · by_cases hrt : upperStr record_type ∈ valid_record_types
      · obtain ⟨result, error, sl, n, heq, _⟩ := retry3_ok s2
        by_cases he : error = ""
        · subst he
          exact ⟨(_process_result tr (result.getD Json.null)
            ("🔍 DNS 查询结果 (" ++ domain ++ ", 类型: " ++ record_type ++ "):"), n),
            by simp [_get_dns, h, hrt, heq]⟩
        · exact ⟨(error, n), by simp [_get_dns, h, hrt, heq, he]⟩
      · exact ⟨(unsupportedTypeMsg, 0), by simp [_get_dns, h, hrt]⟩
  · rcases h : _validate_domain host with ⟨valid, msg⟩
    cases valid
    · exact ⟨(msg, 0), by simp [_ping_host, h]⟩
    · obtain ⟨result, error, sl, n, heq, _⟩ := retry3_ok s3
      by_cases he : error = ""
      · subst he
        exact ⟨(_process_result tr (result.getD Json.null)
          ("📶 Ping 检测结果 (" ++ host ++ "):"), n),
          by simp [_ping_host, h, heq]⟩
      · exact ⟨(error, n), by simp [_ping_host, h, heq, he]⟩

/-! ## Claim C5 -/

mutual
/-- The source formatter renders a value exactly as the spec-side renderer
renders its deep-filtered form. -/
theorem formatData_eq_spec (tr : List (String × String)) :
    (v : Json) → (i : Nat) → _format_data tr v i = formatDataSpec tr (deepFilter v) i
  | .null, _ => rfl
  | .bool _, _ => rfl
  | .num _, _ => rfl
  | .str _, _ => rfl
  | .arr l, i => by
    simp only [_format_data, deepFilter, formatDataSpec]
    rw [formatItems_eq_spec tr l i 0]
  | .obj f, i => by
    simp only [_format_data, deepFilter, formatDataSpec]
    rw [formatFields_eq_spec tr f i]

/-- Field lists: the source's skipping fold equals the spec-side rendering of
the filtered field list. -/
theorem formatFields_eq_spec (tr : List (String × String)) :
    (f : JsonFields) → (i : Nat) →
      formatFields tr f i = specFields tr (deepFilterFields f) i
  | .nil, _ => rfl
  | .cons k v rest, i => by
    cases hs : specSuppressed k v with
    | true =>
      have hc : (suppressedKeys.contains (lowerStr k) || skipValue v) = true := hs
      simp only [formatFields, deepFilterFields, hs, hc, if_true]
      exact formatFields_eq_spec tr rest i
    | false =>
      have hc : (suppressedKeys.contains (lowerStr k) || skipValue v) = false := hs
      simp only [formatFields, deepFilterFields, hs, hc, Bool.false_eq_true, if_false]
      cases v with
      | null => simp [specSuppressed, skipValue] at hs
      | bool b =>
        simp only [specFields, deepFilter]
        rw [formatFields_eq_spec tr rest i]
      | num n =>
        simp only [specFields, deepFilter]
        rw [formatFields_eq_spec tr rest i]
      | str s =>
        simp only [specFields, deepFilter]
        rw [formatFields_eq_spec tr rest i]
      | arr l =>
        simp only [specFields, deepFilter]
        rw [formatFields_eq_spec tr rest i, formatData_eq_spec tr (Json.arr l) (i + 1)]
        simp only [deepFilter]
      | obj f2 =>
        simp only [specFields, deepFilter]
        rw [formatFields_eq_spec tr rest i, formatData_eq_spec tr (Json.obj f2) (i + 1)]
        simp only [deepFilter]

/-- Array elements: element-wise correspondence under `deepFilter`. -/
theorem formatItems_eq_spec (tr : List (String × String)) :
    (l : JsonList) → (i idx : Nat) →
      formatItems tr l i idx = specItems tr (deepFilterList l) i idx
  | .nil, _, _ => rfl
  | .cons v rest, i, idx => by
    cases v with
    | null =>
      simp only [formatItems, deepFilterList, specItems, deepFilter]
      rw [formatItems_eq_spec tr rest i (idx + 1)]
    | bool b =>
      simp only [formatItems, deepFilterList, specItems, deepFilter]
      rw [formatItems_eq_spec tr rest i (idx + 1)]
    | num n =>
      simp only [formatItems, deepFilterList, specItems, deepFilter]
      rw [formatItems_eq_spec tr rest i (idx + 1)]
    | str s =>
      simp only [formatItems, deepFilterList, specItems, deepFilter]
      rw [formatItems_eq_spec tr rest i (idx + 1)]
    | arr l2 =>
      simp only [formatItems, deepFilterList, specItems, deepFilter]
      rw [formatItems_eq_spec tr rest i (idx + 1), formatData_eq_spec tr (Json.arr l2) (i + 1)]
      simp only [deepFilter]
    | obj f2 =>
      simp only [formatItems, deepFilterList, specItems, deepFilter]
      rw [formatItems_eq_spec tr rest i (idx + 1), formatData_eq_spec tr (Json.obj f2) (i + 1)]
      simp only [deepFilter]
end

/-- C5: at every nesting depth the formatter omits exactly the fields whose
lowercased key is in the suppression set or whose value is empty/absent
(`None` or the empty string), and renders all other fields: its output equals
the spec-side renderer (which renders every field) applied to the value with
all suppressed fields removed at every depth. -/
theorem c5_formatter_suppression (tr : List (String × String)) (v : Json) (i : Nat) :
    _format_data tr v i = formatDataSpec tr (deepFilter v) i :=
  formatData_eq_spec tr v i

/-! ## Claim C10 -/

/-- C10: in the recursive formatter a field is skipped for its value only when
the value is `None` or the empty string.  The values `0` and `False` are
rendered as `label: 0` / `label: False`; an empty mapping or sequence is not
skipped — its label line is emitted followed by an empty rendered child; and
whenever prepending a (non-suppressed-key) field leaves the rendered lines
unchanged, that field's value was `None` or `""`. -/
theorem c10_skip_only_none_or_empty (tr : List (String × String)) (k : String)
    (rest : JsonFields) (i : Nat)
    (hk : suppressedKeys.contains (lowerStr k) = false) :
    (formatFields tr (.cons k (Json.num 0) rest) i =
      (indentStr i ++ translatedKey tr k ++ ": 0") :: formatFields tr rest i) ∧
    (formatFields tr (.cons k (Json.bool false) rest) i =
      (indentStr i ++ translatedKey tr k ++ ": False") :: formatFields tr rest i) ∧
    (formatFields tr (.cons k (Json.obj .nil) rest) i =
      (indentStr i ++ translatedKey tr k ++ ":") :: "" :: formatFields tr rest i) ∧
    (formatFields tr (.cons k (Json.arr .nil) rest) i =
      (indentStr i ++ translatedKey tr k ++ ":") :: "" :: formatFields tr rest i) ∧
    (∀ v : Json, formatFields tr (.cons k v rest) i = formatFields tr rest i →
      v = Json.null ∨ v = Json.str "") := by
  have hk' : lowerStr k ∉ suppressedKeys := by simpa using hk
  have hnl : ("\n".intercalate ([] : List String)) = "" := rfl
  refine ⟨?_, ?_, ?_, ?_, ?_⟩
  · rw [formatFields]
    simp only [skipValue, Bool.or_false, hk]
    rw [if_neg (by decide)]
    all_goals try (intro a hx; cases hx)
    rw [show pyStr (Json.num 0) = "0" from by decide, String.append_assoc]
    rfl
  · rw [formatFields]
    simp only [skipValue, Bool.or_false, hk]
    rw [if_neg (by decide)]
    all_goals try (intro a hx; cases hx)
    rw [show pyStr (Json.bool false) = "False" from rfl, String.append_assoc]
    rfl
  · rw [formatFields]
    simp only [skipValue, Bool.or_false, hk]
    rw [if_neg (by decide)]
    simp [_format_data, formatFields] ; rfl
  · rw [formatFields]
    simp only [skipValue, Bool.or_false, hk]
    rw [if_neg (by decide)]
    simp [_format_data, formatItems] ; rfl
  · intro v h
    cases v with
    | null => exact Or.inl rfl
    | str s =>
      by_cases hs : s = ""
      · exact Or.inr (by rw [hs])
      · exfalso
        have hc : (suppressedKeys.contains (lowerStr k) || skipValue (Json.str s)) =
            false := by simp [skipValue, hk', hs]
        rw [formatFields, hc] at h
        rw [if_neg (by decide)] at h
        have := congrArg List.length h
        simp only [List.cons_append, List.nil_append, List.length_cons] at this
        omega
        all_goals try (intro a hx; cases hx)
    | bool b =>
      exfalso
      have hc : (suppressedKeys.contains (lowerStr k) || skipValue (Json.bool b)) =
          false := by simp [skipValue, hk']
      rw [formatFields, hc] at h
      rw [if_neg (by decide)] at h
      have := congrArg List.length h
      simp only [List.cons_append, List.nil_append, List.length_cons] at this
      omega
      all_goals try (intro a hx; cases hx)
    | num n =>
      exfalso
      have hc : (suppressedKeys.contains (lowerStr k) || skipValue (Json.num n)) =
          false := by simp [skipValue, hk']
      rw [formatFields, hc] at h
      rw [if_neg (by decide)] at h
      have := congrArg List.length h
      simp only [List.cons_append, List.nil_append, List.length_cons] at this
      omega
      all_goals try (intro a hx; cases hx)
    | arr l =>
      exfalso
      have hc : (suppressedKeys.contains (lowerStr k) || skipValue (Json.arr l)) =
          false := by simp [skipValue, hk']
      rw [formatFields, hc] at h
      rw [if_neg (by decide)] at h
      have := congrArg List.length h
      simp only [List.cons_append, List.nil_append, List.length_cons] at this
      omega
    | obj f =>
      exfalso
      have hc : (suppressedKeys.contains (lowerStr k) || skipValue (Json.obj f)) =
          false := by simp [skipValue, hk']
      rw [formatFields, hc] at h
      rw [if_neg (by decide)] at h
      have := congrArg List.length h
      simp only [List.cons_append, List.nil_append, List.length_cons] at this
      omega

/-- Witness for C10 at the concrete field `status: 0` with no translations. -/
theorem c10_skip_only_none_or_empty_witness :
    formatFields [] (.cons "status" (Json.num 0) .nil) 0 = ["status: 0"] :=
  ((c10_skip_only_none_or_empty [] "status" .nil 0 (by decide)).1).trans (by decide)
